import Mathlib

/-!
Shallow embedding of the two AWS Lambda Slack notifiers of this repository:

* src/terraform/lambda/pipeline_slack_notifier.py  (function handler)
* src/terraform/lambda/slack_notifier.py           (function handler)

Python strings are modelled as Lean String (sequences of Unicode code
points, matching Python semantics for len, slicing and per-character case
mapping).  Python dicts holding the decoded SNS message are modelled as
association lists with first-match lookup; os.environ is modelled as a
record of the three variables the handlers read.  The one HTTP POST a
handler performs is modelled by passing in the outcome the urllib3 call
would produce: either an HttpResponse or the description of a raised
exception.  datetime.utcnow() is modelled by passing the current timestamp
in as a parameter.
-/

namespace SlackNotify

/-- Models Python str.lower applied character by character, as used on
pipeline status strings (ASCII case mapping). -/
def pyLower (s : String) : String := ⟨s.data.map Char.toLower⟩

/-- Models Python str.upper applied character by character, as used on the
environment label and status for display (ASCII case mapping). -/
def pyUpper (s : String) : String := ⟨s.data.map Char.toUpper⟩

/-- Models the Python slice s[:n]: the first n code points of s. -/
def pySlice (s : String) (n : Nat) : String := ⟨s.data.take n⟩

/-- Models dict.get(k, d) on the decoded SNS message: the stored value if
the key is present, else the default. -/
def pyGet (m : List (String × String)) (k d : String) : String :=
  (m.lookup k).getD d

/-- Models Python truthiness of an optional string (os.environ.get result):
None and the empty string are falsy. -/
def pyFalsyStr : Option String → Bool
  | none => true
  | some s => s == ""

/-- Escape one character as Python json.dumps does for the characters the
handlers can produce (quote, backslash and common control characters). -/
def jsonEscapeChar (c : Char) : String :=
  if c = '"' then "\\\""
  else if c = '\\' then "\\\\"
  else if c = '\n' then "\\n"
  else if c = '\t' then "\\t"
  else if c = '\r' then "\\r"
  else String.singleton c

/-- Escape a string body as Python json.dumps does. -/
def jsonEscape (s : String) : String := String.join (s.data.map jsonEscapeChar)

/-- Models json.dumps applied to a Python str: the escaped text between
double quotes.  Every response body the handlers return is built this way. -/
def jsonStr (s : String) : String := "\"" ++ jsonEscape s ++ "\""

/-- JSON rendering of a Python bool. -/
def jsonBool : Bool → String
  | true => "true"
  | false => "false"

/-- JSON rendering of an optional string slot: Python None serializes as
null, a str serializes quoted. -/
def jsonOptStr : Option String → String
  | none => "null"
  | some s => jsonStr s

/-- One labeled display field of a Slack attachment (dict with keys
title, value, short in pipeline_slack_notifier.py lines 69-110 and
slack_notifier.py lines 59-85). -/
structure Field where
  title : String
  value : String
  short : Bool
deriving DecidableEq

/-- One action button (pipeline_slack_notifier.py lines 130-137). -/
structure SlackButton where
  button_type : String
  text : String
  url : String
  style : String
deriving DecidableEq

/-- The pipeline notifier attachment (pipeline_slack_notifier.py lines
116-125); title_link none models the Python value None, and actions none
models the actions key being absent from the dict. -/
structure Attachment where
  color : String
  title : String
  title_link : Option String
  fields : List Field
  footer : String
  ts : Nat
  actions : Option (List SlackButton)
deriving DecidableEq

/-- The pipeline notifier outbound message (lines 113-126). -/
structure SlackMessage where
  username : String
  icon_emoji : String
  attachments : List Attachment
deriving DecidableEq

/-- The alarm notifier attachment (slack_notifier.py lines 55-89): its dict
literal has no title_link and no actions key. -/
structure AlarmAttachment where
  color : String
  title : String
  fields : List Field
  footer : String
  ts : Nat
deriving DecidableEq

/-- The alarm notifier outbound message (slack_notifier.py lines 52-90). -/
structure AlarmMessage where
  username : String
  icon_emoji : String
  attachments : List AlarmAttachment
deriving DecidableEq

/-- The status buckets of pipeline_slack_notifier.py lines 38-49, mapping a
status string to the (color, emoji) pair.  Comparison is on the lowercased
status, exactly as status.lower() in the source. -/
def classifyPipelineStatus (status : String) : String × String :=
  if pyLower status ∈ ["success", "completed"] then ("#00FF00", "✅")
  else if pyLower status ∈ ["failure", "failed", "error"] then ("#FF0000", "❌")
  else if pyLower status ∈ ["started", "running", "in_progress"] then ("#FFA500", "🔄")
  else ("#808080", "❓")

/-- The title_map dict of pipeline_slack_notifier.py lines 52-65. -/
def titleMap (emoji : String) : List (String × String) :=
  [("deployment_started", emoji ++ " Deployment Started"),
   ("deployment_completed", emoji ++ " Deployment Completed"),
   ("deployment_failed", emoji ++ " Deployment Failed"),
   ("build_started", emoji ++ " Build Started"),
   ("build_completed", emoji ++ " Build Completed"),
   ("build_failed", emoji ++ " Build Failed"),
   ("security_scan_completed", emoji ++ " Security Scan Completed"),
   ("security_scan_failed", emoji ++ " Security Scan Failed"),
   ("health_check_passed", emoji ++ " Health Check Passed"),
   ("health_check_failed", emoji ++ " Health Check Failed"),
   ("rollback_started", emoji ++ " Rollback Started"),
   ("rollback_completed", emoji ++ " Rollback Completed")]

/-- Models title_map.get(event_type, fallback) of line 66. -/
def resolveTitle (emoji event_type : String) : String :=
  ((titleMap emoji).lookup event_type).getD (emoji ++ " Pipeline Event: " ++ event_type)

/-- The event types that get a View Workflow action button (line 129). -/
def failedEvents : List String :=
  ["deployment_failed", "build_failed", "security_scan_failed"]

/-- Builds the pipeline Slack message from the decoded SNS message
(pipeline_slack_notifier.py lines 27-137).  now models
int(datetime.utcnow().timestamp()). -/
def buildPipelineMessage (project_name environment : String)
    (sns_message : List (String × String)) (now : Nat) : SlackMessage :=
  let event_type := pyGet sns_message "event_type" "unknown"
  let status := pyGet sns_message "status" "unknown"
  let branch := pyGet sns_message "branch" "unknown"
  let commit_sha := pyGet sns_message "commit_sha" "unknown"
  let commit_message := pyGet sns_message "commit_message" "No commit message"
  let author := pyGet sns_message "author" "Unknown"
  let workflow_url := pyGet sns_message "workflow_url" ""
  let deployment_version := pyGet sns_message "deployment_version" ""
  let color := (classifyPipelineStatus status).1
  let emoji := (classifyPipelineStatus status).2
  let title := resolveTitle emoji event_type
  let fields0 : List Field :=
    [⟨"Environment", pyUpper environment, true⟩,
     ⟨"Status", pyUpper status, true⟩,
     ⟨"Branch", branch, true⟩,
     ⟨"Commit", pySlice commit_sha 8, true⟩,
     ⟨"Author", author, true⟩]
  let fields1 :=
    if deployment_version ≠ "" then fields0 ++ [⟨"Version", deployment_version, true⟩]
    else fields0
  let fields2 := fields1 ++
    [⟨"Commit Message",
      pySlice commit_message 100 ++ (if commit_message.length > 100 then "..." else ""),
      false⟩]
  let attachment : Attachment :=
    ⟨color, title,
     if workflow_url ≠ "" then some workflow_url else none,
     fields2,
     project_name ++ " Deployment Pipeline",
     now,
     if event_type ∈ failedEvents
       then some [⟨"button", "View Workflow", workflow_url, "primary"⟩]
       else none⟩
  ⟨project_name ++ " CI/CD", ":rocket:", [attachment]⟩

/-- The color_map dict of slack_notifier.py lines 36-40. -/
def alarmColorMap : List (String × String) :=
  [("ALARM", "#FF0000"), ("OK", "#00FF00"), ("INSUFFICIENT_DATA", "#FFA500")]

/-- The emoji_map dict of slack_notifier.py lines 44-48. -/
def alarmEmojiMap : List (String × String) :=
  [("ALARM", "🚨"), ("OK", "✅"), ("INSUFFICIENT_DATA", "⚠️")]

/-- Models color_map.get(new_state, gray) of slack_notifier.py line 41:
exact-match lookup, no case normalization. -/
def alarmColor (new_state : String) : String :=
  (alarmColorMap.lookup new_state).getD "#808080"

/-- Models emoji_map.get(new_state, unknown) of slack_notifier.py line 49. -/
def alarmEmoji (new_state : String) : String :=
  (alarmEmojiMap.lookup new_state).getD "❓"

/-- Builds the alarm Slack message from the decoded SNS message
(slack_notifier.py lines 27-90).  now models
int(datetime.utcnow().timestamp()); nowIso models
datetime.utcnow().isoformat(), the default for StateChangeTime. -/
def buildAlarmMessage (project_name environment : String)
    (sns_message : List (String × String)) (now : Nat) (nowIso : String) : AlarmMessage :=
  let alarm_name := pyGet sns_message "AlarmName" "Unknown Alarm"
  let alarm_description := pyGet sns_message "AlarmDescription" "No description"
  let new_state := pyGet sns_message "NewStateValue" "UNKNOWN"
  let old_state := pyGet sns_message "OldStateValue" "UNKNOWN"
  let reason := pyGet sns_message "NewStateReason" "No reason provided"
  let timestamp := pyGet sns_message "StateChangeTime" nowIso
  ⟨project_name ++ " Monitoring", ":warning:",
   [⟨alarmColor new_state,
     alarmEmoji new_state ++ " CloudWatch Alarm: " ++ alarm_name,
     [⟨"Environment", pyUpper environment, true⟩,
      ⟨"State Change", old_state ++ " → " ++ new_state, true⟩,
      ⟨"Description", alarm_description, false⟩,
      ⟨"Reason", reason, false⟩,
      ⟨"Timestamp", timestamp, true⟩],
     project_name ++ " AWS Infrastructure", now⟩]⟩

/-- The opening-brace character, written by code point to keep brace
characters out of literals. -/
def lbrace : Char := Char.ofNat 123

/-- The closing-brace character. -/
def rbrace : Char := Char.ofNat 125

/-- Renders the field dict as json.dumps does (insertion order, default
separators). -/
def serializeField (f : Field) : String :=
  String.singleton lbrace ++ "\"title\": " ++ jsonStr f.title ++
  ", \"value\": " ++ jsonStr f.value ++
  ", \"short\": " ++ jsonBool f.short ++ String.singleton rbrace

/-- Renders an action button dict as json.dumps does. -/
def serializeButton (b : SlackButton) : String :=
  String.singleton lbrace ++ "\"type\": " ++ jsonStr b.button_type ++
  ", \"text\": " ++ jsonStr b.text ++
  ", \"url\": " ++ jsonStr b.url ++
  ", \"style\": " ++ jsonStr b.style ++ String.singleton rbrace

/-- Renders the pipeline attachment dict as json.dumps does: title_link is
always a key (null when the Python value is None); the actions key appears
only when the source added it. -/
def serializeAttachment (a : Attachment) : String :=
  String.singleton lbrace ++ "\"color\": " ++ jsonStr a.color ++
  ", \"title\": " ++ jsonStr a.title ++
  ", \"title_link\": " ++ jsonOptStr a.title_link ++
  ", \"fields\": [" ++ String.intercalate ", " (a.fields.map serializeField) ++ "]" ++
  ", \"footer\": " ++ jsonStr a.footer ++
  ", \"ts\": " ++ toString a.ts ++
  (match a.actions with
   | none => ""
   | some bs => ", \"actions\": [" ++ String.intercalate ", " (bs.map serializeButton) ++ "]") ++
  String.singleton rbrace

/-- Models json.dumps(slack_message) for the pipeline notifier (line 144). -/
def serializePipelineMessage (m : SlackMessage) : String :=
  String.singleton lbrace ++ "\"username\": " ++ jsonStr m.username ++
  ", \"icon_emoji\": " ++ jsonStr m.icon_emoji ++
  ", \"attachments\": [" ++
  String.intercalate ", " (m.attachments.map serializeAttachment) ++ "]" ++
  String.singleton rbrace

/-- Renders the alarm attachment dict as json.dumps does. -/
def serializeAlarmAttachment (a : AlarmAttachment) : String :=
  String.singleton lbrace ++ "\"color\": " ++ jsonStr a.color ++
  ", \"title\": " ++ jsonStr a.title ++
  ", \"fields\": [" ++ String.intercalate ", " (a.fields.map serializeField) ++ "]" ++
  ", \"footer\": " ++ jsonStr a.footer ++
  ", \"ts\": " ++ toString a.ts ++ String.singleton rbrace

/-- Models json.dumps(slack_message) for the alarm notifier (line 97). -/
def serializeAlarmMessage (m : AlarmMessage) : String :=
  String.singleton lbrace ++ "\"username\": " ++ jsonStr m.username ++
  ", \"icon_emoji\": " ++ jsonStr m.icon_emoji ++
  ", \"attachments\": [" ++
  String.intercalate ", " (m.attachments.map serializeAlarmAttachment) ++ "]" ++
  String.singleton rbrace

/-- Drop leading JSON whitespace. -/
def skipWs : List Char → List Char
  | [] => []
  | c :: cs => if c = ' ' ∨ c = '\n' ∨ c = '\t' ∨ c = '\r' then skipWs cs else c :: cs

/-- Parse the remainder of a JSON string literal (after the opening quote),
accumulating characters until the closing quote, decoding the simple
escapes.  Returns the string and the unconsumed input. -/
def parseJStr (acc : List Char) : List Char → Except String (String × List Char)
  | [] => .error "Unterminated string"
  | c :: cs =>
    if c = '"' then .ok (⟨acc.reverse⟩, cs)
    else if c = '\\' then
      match cs with
      | [] => .error "Unterminated string"
      | e :: cs2 =>
        let d := if e = 'n' then '\n' else if e = 't' then '\t' else if e = 'r' then '\r' else e
        parseJStr (d :: acc) cs2
    else parseJStr (c :: acc) cs

/-- Parse the members of a flat JSON object of string values, after the
opening brace, until the closing brace.  fuel bounds the number of members
and exceeds any input length. -/
def parseMembers : Nat → List Char → List (String × String) →
    Except String (List (String × String) × List Char)
  | 0, _, _ => .error "Expecting property name enclosed in double quotes"
  | Nat.succ fuel, cs, acc =>
    match skipWs cs with
    | '"' :: cs1 =>
      match parseJStr [] cs1 with
      | .error e => .error e
      | .ok (k, cs2) =>
        match skipWs cs2 with
        | ':' :: cs3 =>
          match skipWs cs3 with
          | '"' :: cs4 =>
            match parseJStr [] cs4 with
            | .error e => .error e
            | .ok (v, cs5) =>
              match skipWs cs5 with
              | c :: cs6 =>
                if c = ',' then parseMembers fuel cs6 ((k, v) :: acc)
                else if c = rbrace then .ok (((k, v) :: acc).reverse, cs6)
                else .error "Expecting delimiter"
              | [] => .error "Expecting delimiter"
          | _ => .error "Expecting string value"
        | _ => .error "Expecting colon delimiter"
    | _ => .error "Expecting property name enclosed in double quotes"

/-- Models json.loads (line 25 of both handlers) restricted to the shape
the handlers consume: a flat JSON object whose values are strings.  Any
other input yields the description of the raised decode error. -/
def jsonLoads (s : String) : Except String (List (String × String)) :=
  match skipWs s.data with
  | c :: cs =>
    if c = lbrace then
      match skipWs cs with
      | c1 :: cs1 =>
        if c1 = rbrace then
          if (skipWs cs1).isEmpty then .ok [] else .error "Extra data"
        else
          match parseMembers (s.length + 1) (c1 :: cs1) [] with
          | .error e => .error e
          | .ok (m, rest) =>
            if (skipWs rest).isEmpty then .ok m else .error "Extra data"
      | [] => .error "Expecting property name enclosed in double quotes"
    else .error "Expecting value"
  | [] => .error "Expecting value"

/-- The inner Sns dict of one record; Message none models the Message key
being absent. -/
structure SnsEntry where
  Message : Option String
deriving DecidableEq

/-- One record of the triggering event; Sns none models the Sns key being
absent. -/
structure SnsRecord where
  Sns : Option SnsEntry
deriving DecidableEq

/-- The triggering Lambda event; Records none models the Records key being
absent. -/
structure LambdaEvent where
  Records : Option (List SnsRecord)
deriving DecidableEq

/-- Models event[\x27Records\x27][0][\x27Sns\x27][\x27Message\x27] (line 25
of both handlers): each missing key raises a KeyError whose str() is the
quoted key name; an empty Records list raises an IndexError. -/
def extractSnsMessage (event : LambdaEvent) : Except String String :=
  match event.Records with
  | none => .error "\x27Records\x27"
  | some [] => .error "list index out of range"
  | some (r :: _) =>
    match r.Sns with
    | none => .error "\x27Sns\x27"
    | some entry =>
      match entry.Message with
      | none => .error "\x27Message\x27"
      | some m => .ok m

/-- The structured result a handler returns: a numeric status code and a
JSON-encoded string body. -/
structure LambdaResponse where
  statusCode : Nat
  body : String
deriving DecidableEq

/-- The outcome of the urllib3 POST: its status and its body
(str(response.data)). -/
structure HttpResponse where
  status : Nat
  data : String
deriving DecidableEq

/-- A whole handler invocation outcome: the returned response, and the JSON
payload POSTed to the webhook when a delivery was attempted (none when the
invocation returned before reaching http.request). -/
structure HandlerOutput where
  response : LambdaResponse
  post : Option String
deriving DecidableEq

/-- The three environment variables the handlers read; none models an unset
variable. -/
structure Env where
  SLACK_WEBHOOK_URL : Option String
  PROJECT_NAME : Option String
  ENVIRONMENT : Option String
deriving DecidableEq

/-- The pipeline notifier handler (pipeline_slack_notifier.py lines 6-166).
remote is the outcome of the one http.request call: ok models a returned
response, error models an exception raised during delivery, which the
try/except converts to a 500 like any other exception. -/
def pipelineHandler (env : Env) (event : LambdaEvent)
    (remote : Except String HttpResponse) (now : Nat) : HandlerOutput :=
  let webhook_url := env.SLACK_WEBHOOK_URL
  let project_name := env.PROJECT_NAME.getD "NovaCore Vectra"
  let environment := env.ENVIRONMENT.getD "unknown"
  if pyFalsyStr webhook_url then
    ⟨⟨400, jsonStr "Slack webhook URL not configured"⟩, none⟩
  else
    match extractSnsMessage event with
    | .error e => ⟨⟨500, jsonStr ("Error: " ++ e)⟩, none⟩
    | .ok msg =>
      match jsonLoads msg with
      | .error e => ⟨⟨500, jsonStr ("Error: " ++ e)⟩, none⟩
      | .ok sns_message =>
        let slack_message := buildPipelineMessage project_name environment sns_message now
        let payload := serializePipelineMessage slack_message
        match remote with
        | .error e => ⟨⟨500, jsonStr ("Error: " ++ e)⟩, some payload⟩
        | .ok resp =>
          if resp.status = 200 then
            ⟨⟨200, jsonStr "Notification sent successfully"⟩, some payload⟩
          else
            ⟨⟨resp.status, jsonStr ("Failed to send notification: " ++ resp.data)⟩,
             some payload⟩

/-- The alarm notifier handler (slack_notifier.py lines 6-119), modelled
exactly as pipelineHandler; nowIso models datetime.utcnow().isoformat(). -/
def alarmHandler (env : Env) (event : LambdaEvent)
    (remote : Except String HttpResponse) (now : Nat) (nowIso : String) : HandlerOutput :=
  let webhook_url := env.SLACK_WEBHOOK_URL
  let project_name := env.PROJECT_NAME.getD "NovaCore Vectra"
  let environment := env.ENVIRONMENT.getD "unknown"
  if pyFalsyStr webhook_url then
    ⟨⟨400, jsonStr "Slack webhook URL not configured"⟩, none⟩
  else
    match extractSnsMessage event with
    | .error e => ⟨⟨500, jsonStr ("Error: " ++ e)⟩, none⟩
    | .ok msg =>
      match jsonLoads msg with
      | .error e => ⟨⟨500, jsonStr ("Error: " ++ e)⟩, none⟩
      | .ok sns_message =>
        let slack_message := buildAlarmMessage project_name environment sns_message now nowIso
        let payload := serializeAlarmMessage slack_message
        match remote with
        | .error e => ⟨⟨500, jsonStr ("Error: " ++ e)⟩, some payload⟩
        | .ok resp =>
          if resp.status = 200 then
            ⟨⟨200, jsonStr "Notification sent successfully"⟩, some payload⟩
          else
            ⟨⟨resp.status, jsonStr ("Failed to send notification: " ++ resp.data)⟩,
             some payload⟩

theorem pySlice_eq_of_le (s : String) (n : Nat) (h : s.length ≤ n) : pySlice s n = s := by
  apply String.ext
  simpa [pySlice] using List.take_of_length_le h

theorem str_append_empty (s : String) : s ++ "" = s := by
  apply String.ext
  simp

/-- Claim C2: the pipeline status classifier compares the lowercased status
and returns green/✅ on the success bucket, red/❌ on the failure bucket,
orange/🔄 on the running bucket, and the gray/❓ pair on every other string;
being a total Lean function it can never raise. -/
theorem claim_C2 (status : String) :
    (pyLower status ∈ ["success", "completed"] →
      classifyPipelineStatus status = ("#00FF00", "✅")) ∧
    (pyLower status ∈ ["failure", "failed", "error"] →
      classifyPipelineStatus status = ("#FF0000", "❌")) ∧
    (pyLower status ∈ ["started", "running", "in_progress"] →
      classifyPipelineStatus status = ("#FFA500", "🔄")) ∧
    (pyLower status ∉ ["success", "completed"] →
     pyLower status ∉ ["failure", "failed", "error"] →
     pyLower status ∉ ["started", "running", "in_progress"] →
      classifyPipelineStatus status = ("#808080", "❓")) := by
  refine ⟨fun h => ?_, fun h => ?_, fun h => ?_, fun h1 h2 h3 => ?_⟩
  · simp only [classifyPipelineStatus]
    rw [if_pos h]
  · simp only [List.mem_cons, List.not_mem_nil, or_false] at h
    rcases h with h | h | h <;>
      · simp only [classifyPipelineStatus]
        rw [h]
        decide
  · simp only [List.mem_cons, List.not_mem_nil, or_false] at h
    rcases h with h | h | h <;>
      · simp only [classifyPipelineStatus]
        rw [h]
        decide
  · simp only [classifyPipelineStatus]
    rw [if_neg h1, if_neg h2, if_neg h3]

/-- Claim C2 witness: concrete instances of the green and gray buckets,
obtained from claim_C2. -/
theorem claim_C2_witness :
    classifyPipelineStatus "SUCCESS" = ("#00FF00", "✅") ∧
    classifyPipelineStatus "paused" = ("#808080", "❓") ∧
    classifyPipelineStatus "" = ("#808080", "❓") :=
  ⟨(claim_C2 "SUCCESS").1 (by decide),
   (claim_C2 "paused").2.2.2 (by decide) (by decide) (by decide),
   (claim_C2 "").2.2.2 (by decide) (by decide) (by decide)⟩

/-- Claim C9: the alarm classifier maps the new-state string by exact match
with no case normalization (ALARM → red/🚨, OK → green/✅,
INSUFFICIENT_DATA → orange/⚠️, anything else → gray/❓), and an alarm
transitioning from ALARM to OK yields a green attachment whose title is ✅
CloudWatch Alarm: followed by the alarm name and whose State Change field
reads ALARM → OK. -/
theorem claim_C9 (s : String) (project_name environment : String)
    (sns : List (String × String)) (now : Nat) (nowIso : String)
    (hold : sns.lookup "OldStateValue" = some "ALARM")
    (hnew : sns.lookup "NewStateValue" = some "OK") :
    (alarmColor "ALARM" = "#FF0000" ∧ alarmEmoji "ALARM" = "🚨") ∧
    (alarmColor "OK" = "#00FF00" ∧ alarmEmoji "OK" = "✅") ∧
    (alarmColor "INSUFFICIENT_DATA" = "#FFA500" ∧
      alarmEmoji "INSUFFICIENT_DATA" = "⚠️") ∧
    (s ∉ ["ALARM", "OK", "INSUFFICIENT_DATA"] →
      alarmColor s = "#808080" ∧ alarmEmoji s = "❓") ∧
    (∃ a, (buildAlarmMessage project_name environment sns now nowIso).attachments = [a] ∧
      a.color = "#00FF00" ∧
      a.title = "✅ CloudWatch Alarm: " ++ pyGet sns "AlarmName" "Unknown Alarm" ∧
      ⟨"State Change", "ALARM → OK", true⟩ ∈ a.fields) := by
  have hbase : (alarmColor "ALARM" = "#FF0000" ∧ alarmEmoji "ALARM" = "🚨") ∧
      (alarmColor "OK" = "#00FF00" ∧ alarmEmoji "OK" = "✅") ∧
      (alarmColor "INSUFFICIENT_DATA" = "#FFA500" ∧
        alarmEmoji "INSUFFICIENT_DATA" = "⚠️") := by decide
  refine ⟨hbase.1, hbase.2.1, hbase.2.2, fun h => ?_, ?_⟩
  · simp only [List.mem_cons, List.not_mem_nil, or_false, not_or] at h
    have e1 : (s == "ALARM") = false := by simp [h.1]
    have e2 : (s == "OK") = false := by simp [h.2.1]
    have e3 : (s == "INSUFFICIENT_DATA") = false := by simp [h.2.2]
    constructor
    · simp [alarmColor, alarmColorMap, List.lookup, e1, e2, e3]
    · simp [alarmEmoji, alarmEmojiMap, List.lookup, e1, e2, e3]
  · refine ⟨_, rfl, ?_, ?_, ?_⟩
    · show alarmColor (pyGet sns "NewStateValue" "UNKNOWN") = "#00FF00"
      rw [show pyGet sns "NewStateValue" "UNKNOWN" = "OK" by simp [pyGet, hnew]]
      exact hbase.2.1.1
    · show alarmEmoji (pyGet sns "NewStateValue" "UNKNOWN") ++ " CloudWatch Alarm: " ++
        pyGet sns "AlarmName" "Unknown Alarm" = _
      rw [show pyGet sns "NewStateValue" "UNKNOWN" = "OK" by simp [pyGet, hnew]]
      rw [hbase.2.1.2]
      exact congrArg (fun t => t ++ pyGet sns "AlarmName" "Unknown Alarm") (by decide)
    · show (⟨"State Change", "ALARM → OK", true⟩ : Field) ∈
        [⟨"Environment", pyUpper environment, true⟩,
         ⟨"State Change",
           pyGet sns "OldStateValue" "UNKNOWN" ++ " → " ++ pyGet sns "NewStateValue" "UNKNOWN",
           true⟩,
         ⟨"Description", pyGet sns "AlarmDescription" "No description", false⟩,
         ⟨"Reason", pyGet sns "NewStateReason" "No reason provided", false⟩,
         ⟨"Timestamp", pyGet sns "StateChangeTime" nowIso, true⟩]
      rw [show pyGet sns "NewStateValue" "UNKNOWN" = "OK" by simp [pyGet, hnew]]
      rw [show pyGet sns "OldStateValue" "UNKNOWN" = "ALARM" by simp [pyGet, hold]]
      simp

/-- Claim C9 witness: the table and the ALARM→OK scenario at a concrete
alarm message, from claim_C9; the gray bucket is shown at the lowercase
string ok, witnessing the absence of case normalization. -/
theorem claim_C9_witness :
    (alarmColor "ok" = "#808080" ∧ alarmEmoji "ok" = "❓") ∧
    (∃ a, (buildAlarmMessage "NovaCore Vectra" "dev"
        [("AlarmName", "cpu-high"), ("OldStateValue", "ALARM"), ("NewStateValue", "OK")]
        0 "t").attachments = [a] ∧
      a.color = "#00FF00" ∧
      a.title = "✅ CloudWatch Alarm: " ++
        pyGet [("AlarmName", "cpu-high"), ("OldStateValue", "ALARM"), ("NewStateValue", "OK")]
          "AlarmName" "Unknown Alarm" ∧
      ⟨"State Change", "ALARM → OK", true⟩ ∈ a.fields) :=
  ⟨(claim_C9 "ok" "NovaCore Vectra" "dev"
      [("AlarmName", "cpu-high"), ("OldStateValue", "ALARM"), ("NewStateValue", "OK")]
      0 "t" rfl rfl).2.2.2.1 (by decide),
   (claim_C9 "ok" "NovaCore Vectra" "dev"
      [("AlarmName", "cpu-high"), ("OldStateValue", "ALARM"), ("NewStateValue", "OK")]
      0 "t" rfl rfl).2.2.2.2⟩

/-- Claim C1: when the decoded pipeline event has no workflow_url field, or
has it equal to the empty string, the built message's attachment carries no
link (title_link is the Python None), and that absent link serializes to the
JSON token null, never to the JSON empty string. -/
theorem claim_C1 (project_name environment : String)
    (sns : List (String × String)) (now : Nat)
    (h : sns.lookup "workflow_url" = none ∨ sns.lookup "workflow_url" = some "") :
    ∃ a, (buildPipelineMessage project_name environment sns now).attachments = [a] ∧
      a.title_link = none ∧
      jsonOptStr a.title_link = "null" ∧
      jsonOptStr a.title_link ≠ jsonStr "" := by
  have hw : pyGet sns "workflow_url" "" = "" := by
    rcases h with h | h <;> simp [pyGet, h]
  obtain ⟨a, h1, h2⟩ :
      ∃ a, (buildPipelineMessage project_name environment sns now).attachments = [a] ∧
        a.title_link =
          (if pyGet sns "workflow_url" "" ≠ "" then some (pyGet sns "workflow_url" "") else none) :=
    ⟨_, rfl, rfl⟩
  refine ⟨a, h1, ?_, ?_, ?_⟩ <;> rw [h2, hw] <;> decide

/-- Claim C1 witness: the pipeline message built from an event with no
workflow_url field, via claim_C1. -/
theorem claim_C1_witness :
    ∃ a, (buildPipelineMessage "NovaCore Vectra" "dev"
        [("event_type", "build_completed"), ("status", "success")] 0).attachments = [a] ∧
      a.title_link = none ∧
      jsonOptStr a.title_link = "null" ∧
      jsonOptStr a.title_link ≠ jsonStr "" :=
  claim_C1 "NovaCore Vectra" "dev"
    [("event_type", "build_completed"), ("status", "success")] 0 (Or.inl rfl)

/-- Claim C3: the built pipeline attachment carries the singleton View
Workflow actions list exactly when the event type is deployment_failed,
build_failed or security_scan_failed, and carries no actions entry at all
(none, so the serialized dict has no actions key) for every other event
type. -/
theorem claim_C3 (project_name environment : String)
    (sns : List (String × String)) (now : Nat) :
    ∃ a, (buildPipelineMessage project_name environment sns now).attachments = [a] ∧
      (pyGet sns "event_type" "unknown" ∈ failedEvents →
        a.actions = some [⟨"button", "View Workflow", pyGet sns "workflow_url" "", "primary"⟩]) ∧
      (pyGet sns "event_type" "unknown" ∉ failedEvents → a.actions = none) := by
  refine ⟨_, rfl, fun h => ?_, fun h => ?_⟩
  · show (if pyGet sns "event_type" "unknown" ∈ failedEvents then _ else none) = _
    rw [if_pos h]
  · show (if pyGet sns "event_type" "unknown" ∈ failedEvents then _ else none) = none
    rw [if_neg h]

/-- Claim C3 witness: a build_failed event gets the button, a
build_completed event gets no actions entry, via claim_C3. -/
theorem claim_C3_witness :
    (∃ a, (buildPipelineMessage "p" "e" [("event_type", "build_failed")] 0).attachments = [a] ∧
      a.actions = some [⟨"button", "View Workflow", "", "primary"⟩]) ∧
    (∃ a, (buildPipelineMessage "p" "e" [("event_type", "build_completed")] 0).attachments = [a] ∧
      a.actions = none) := by
  constructor
  · obtain ⟨a, h1, h2, _⟩ := claim_C3 "p" "e" [("event_type", "build_failed")] 0
    exact ⟨a, h1, h2 (by decide)⟩
  · obtain ⟨a, h1, _, h3⟩ := claim_C3 "p" "e" [("event_type", "build_completed")] 0
    exact ⟨a, h1, h3 (by decide)⟩

/-- Claim C8: the Commit Message field is the last field of the built
pipeline attachment; its value is the commit message itself when that is at
most 100 characters long, and the first 100 characters followed by three
dots when longer. -/
theorem claim_C8 (project_name environment : String)
    (sns : List (String × String)) (now : Nat) :
    ∃ a, (buildPipelineMessage project_name environment sns now).attachments = [a] ∧
      ((pyGet sns "commit_message" "No commit message").length ≤ 100 →
        a.fields.getLast? =
          some ⟨"Commit Message", pyGet sns "commit_message" "No commit message", false⟩) ∧
      ((pyGet sns "commit_message" "No commit message").length > 100 →
        a.fields.getLast? =
          some ⟨"Commit Message",
            pySlice (pyGet sns "commit_message" "No commit message") 100 ++ "...",
            false⟩) := by
  refine ⟨_, rfl, fun h => ?_, fun h => ?_⟩
  · rw [List.getLast?_concat]
    rw [if_neg (Nat.not_lt.mpr h)]
    rw [str_append_empty, pySlice_eq_of_le _ _ h]
  · rw [List.getLast?_concat]
    rw [if_pos h]

/-- Claim C8 witness: a 150-character commit message displays as its first
100 characters followed by three dots, via claim_C8. -/
theorem claim_C8_witness :
    ∃ a, (buildPipelineMessage "p" "e"
        [("commit_message", String.mk (List.replicate 150 'a'))] 0).attachments = [a] ∧
      a.fields.getLast? =
        some ⟨"Commit Message",
          pySlice (pyGet [("commit_message", String.mk (List.replicate 150 'a'))]
            "commit_message" "No commit message") 100 ++ "...",
          false⟩ := by
  obtain ⟨a, h1, _, h3⟩ :=
    claim_C8 "p" "e" [("commit_message", String.mk (List.replicate 150 'a'))] 0
  exact ⟨a, h1, h3 (by set_option maxRecDepth 4096 in decide)⟩

/-- Claim C4: when the SLACK_WEBHOOK_URL variable is unset, both handlers
return the 400 configuration-error response with no webhook delivery, and
the result is the same for every input event and every delivery outcome, so
the input is never decoded or parsed. -/
theorem claim_C4 (env : Env) (event event2 : LambdaEvent)
    (remote remote2 : Except String HttpResponse) (now now2 : Nat)
    (nowIso nowIso2 : String)
    (h : env.SLACK_WEBHOOK_URL = none) :
    pipelineHandler env event remote now =
      ⟨⟨400, jsonStr "Slack webhook URL not configured"⟩, none⟩ ∧
    pipelineHandler env event remote now = pipelineHandler env event2 remote2 now2 ∧
    alarmHandler env event remote now nowIso =
      ⟨⟨400, jsonStr "Slack webhook URL not configured"⟩, none⟩ ∧
    alarmHandler env event remote now nowIso = alarmHandler env event2 remote2 now2 nowIso2 := by
  refine ⟨?_, ?_, ?_, ?_⟩ <;> simp [pipelineHandler, alarmHandler, pyFalsyStr, h]

/-- Claim C4 witness: the unset-webhook responses at two different concrete
events and delivery outcomes, via claim_C4. -/
theorem claim_C4_witness :
    pipelineHandler ⟨none, none, none⟩ ⟨none⟩ (.ok ⟨200, ""⟩) 0 =
      ⟨⟨400, jsonStr "Slack webhook URL not configured"⟩, none⟩ ∧
    pipelineHandler ⟨none, none, none⟩ ⟨none⟩ (.ok ⟨200, ""⟩) 0 =
      pipelineHandler ⟨none, none, none⟩ ⟨some [⟨some ⟨some "garbage"⟩⟩]⟩ (.error "boom") 7 ∧
    alarmHandler ⟨none, none, none⟩ ⟨none⟩ (.ok ⟨200, ""⟩) 0 "t" =
      ⟨⟨400, jsonStr "Slack webhook URL not configured"⟩, none⟩ ∧
    alarmHandler ⟨none, none, none⟩ ⟨none⟩ (.ok ⟨200, ""⟩) 0 "t" =
      alarmHandler ⟨none, none, none⟩ ⟨some [⟨some ⟨some "garbage"⟩⟩]⟩ (.error "boom") 7 "u" :=
  claim_C4 ⟨none, none, none⟩ ⟨none⟩ ⟨some [⟨some ⟨some "garbage"⟩⟩]⟩
    (.ok ⟨200, ""⟩) (.error "boom") 0 7 "t" "u" rfl

/-- Claim C5: with the webhook configured and the event decodable, each
handler returns 200 with the success body exactly when the webhook answered
200, and for any other remote status (503 included) it returns the remote
status with a body echoing the remote response body. -/
theorem claim_C5 (env : Env) (event : LambdaEvent) (resp : HttpResponse)
    (now : Nat) (nowIso : String) (msg : String) (sns : List (String × String))
    (hw : pyFalsyStr env.SLACK_WEBHOOK_URL = false)
    (hm : extractSnsMessage event = .ok msg)
    (hj : jsonLoads msg = .ok sns) :
    (resp.status = 200 →
      (pipelineHandler env event (.ok resp) now).response =
        ⟨200, jsonStr "Notification sent successfully"⟩ ∧
      (alarmHandler env event (.ok resp) now nowIso).response =
        ⟨200, jsonStr "Notification sent successfully"⟩) ∧
    (resp.status ≠ 200 →
      (pipelineHandler env event (.ok resp) now).response =
        ⟨resp.status, jsonStr ("Failed to send notification: " ++ resp.data)⟩ ∧
      (alarmHandler env event (.ok resp) now nowIso).response =
        ⟨resp.status, jsonStr ("Failed to send notification: " ++ resp.data)⟩) := by
  constructor <;> intro h <;>
    constructor <;> simp [pipelineHandler, alarmHandler, hw, hm, hj, h]

/-- Claim C5 witness: a webhook answering 503 with a body is echoed back as
a 503 failure response by both handlers, via claim_C5. -/
theorem claim_C5_witness :
    (pipelineHandler ⟨some "https://hooks.example", none, none⟩
        ⟨some [⟨some ⟨some "\x7b\x7d"⟩⟩]⟩ (.ok ⟨503, "service unavailable"⟩) 0).response =
      ⟨503, jsonStr ("Failed to send notification: " ++ "service unavailable")⟩ ∧
    (alarmHandler ⟨some "https://hooks.example", none, none⟩
        ⟨some [⟨some ⟨some "\x7b\x7d"⟩⟩]⟩ (.ok ⟨503, "service unavailable"⟩) 0 "t").response =
      ⟨503, jsonStr ("Failed to send notification: " ++ "service unavailable")⟩ :=
  (claim_C5 ⟨some "https://hooks.example", none, none⟩ ⟨some [⟨some ⟨some "\x7b\x7d"⟩⟩]⟩
    ⟨503, "service unavailable"⟩ 0 "t" "\x7b\x7d" [] rfl rfl rfl).2 (by decide)

/-- Claim C6: with the webhook configured, any decoding failure — missing
records or structural fields in the envelope, or an embedded message that
is not well-formed JSON — makes the pipeline handler return 500 with an
error body carrying the decode exception description, and no webhook
delivery is attempted. -/
theorem claim_C6 (env : Env) (event : LambdaEvent)
    (remote : Except String HttpResponse) (now : Nat) (d : String)
    (hw : pyFalsyStr env.SLACK_WEBHOOK_URL = false)
    (h : extractSnsMessage event = .error d ∨
      ∃ msg, extractSnsMessage event = .ok msg ∧ jsonLoads msg = .error d) :
    pipelineHandler env event remote now = ⟨⟨500, jsonStr ("Error: " ++ d)⟩, none⟩ := by
  rcases h with h | ⟨msg, hm, hj⟩
  · simp [pipelineHandler, hw, h]
  · simp [pipelineHandler, hw, hm, hj]

/-- Claim C6 witness: an envelope with no records, and an envelope whose
embedded message is not JSON, both via claim_C6. -/
theorem claim_C6_witness :
    pipelineHandler ⟨some "https://hooks.example", none, none⟩ ⟨none⟩ (.ok ⟨200, "ok"⟩) 0 =
      ⟨⟨500, jsonStr ("Error: " ++ "\x27Records\x27")⟩, none⟩ ∧
    pipelineHandler ⟨some "https://hooks.example", none, none⟩
        ⟨some [⟨some ⟨some "not json"⟩⟩]⟩ (.ok ⟨200, "ok"⟩) 0 =
      ⟨⟨500, jsonStr ("Error: " ++ "Expecting value")⟩, none⟩ :=
  ⟨claim_C6 ⟨some "https://hooks.example", none, none⟩ ⟨none⟩ (.ok ⟨200, "ok"⟩) 0
      "\x27Records\x27" rfl (Or.inl rfl),
   claim_C6 ⟨some "https://hooks.example", none, none⟩ ⟨some [⟨some ⟨some "not json"⟩⟩]⟩
      (.ok ⟨200, "ok"⟩) 0 "Expecting value" rfl (Or.inr ⟨"not json", rfl, rfl⟩)⟩

/-- Claim C7: every invocation of either handler, whatever the event and
whatever the delivery outcome (a returned response or a raised exception),
produces a structured result whose body is a JSON-encoded string; being
total Lean functions the handlers can never propagate a fault. -/
theorem claim_C7 (env : Env) (event : LambdaEvent)
    (remote : Except String HttpResponse) (now : Nat) (nowIso : String) :
    (∃ s, (pipelineHandler env event remote now).response.body = jsonStr s) ∧
    (∃ s, (alarmHandler env event remote now nowIso).response.body = jsonStr s) := by
  constructor
  · simp only [pipelineHandler]
    repeat
      first
      | exact ⟨_, rfl⟩
      | split
  · simp only [alarmHandler]
    repeat
      first
      | exact ⟨_, rfl⟩
      | split

/-- Claim C10: a SLACK_WEBHOOK_URL set to the empty string is treated
exactly like an unset one: both handlers return the 400 configuration-error
response, attempt no delivery, and behave identically to the same
environment with the variable removed. -/
theorem claim_C10 (env : Env) (event : LambdaEvent)
    (remote : Except String HttpResponse) (now : Nat) (nowIso : String)
    (h : env.SLACK_WEBHOOK_URL = some "") :
    pipelineHandler env event remote now =
      ⟨⟨400, jsonStr "Slack webhook URL not configured"⟩, none⟩ ∧
    pipelineHandler env event remote now =
      pipelineHandler ⟨none, env.PROJECT_NAME, env.ENVIRONMENT⟩ event remote now ∧
    alarmHandler env event remote now nowIso =
      ⟨⟨400, jsonStr "Slack webhook URL not configured"⟩, none⟩ ∧
    alarmHandler env event remote now nowIso =
      alarmHandler ⟨none, env.PROJECT_NAME, env.ENVIRONMENT⟩ event remote now nowIso := by
  refine ⟨?_, ?_, ?_, ?_⟩ <;> simp [pipelineHandler, alarmHandler, pyFalsyStr, h]

/-- Claim C10 witness: the empty-string webhook URL at a concrete decodable
event, via claim_C10. -/
theorem claim_C10_witness :
    pipelineHandler ⟨some "", some "P", some "dev"⟩ ⟨some [⟨some ⟨some "\x7b\x7d"⟩⟩]⟩
        (.ok ⟨200, ""⟩) 0 =
      ⟨⟨400, jsonStr "Slack webhook URL not configured"⟩, none⟩ ∧
    pipelineHandler ⟨some "", some "P", some "dev"⟩ ⟨some [⟨some ⟨some "\x7b\x7d"⟩⟩]⟩
        (.ok ⟨200, ""⟩) 0 =
      pipelineHandler ⟨none, some "P", some "dev"⟩ ⟨some [⟨some ⟨some "\x7b\x7d"⟩⟩]⟩
        (.ok ⟨200, ""⟩) 0 ∧
    alarmHandler ⟨some "", some "P", some "dev"⟩ ⟨some [⟨some ⟨some "\x7b\x7d"⟩⟩]⟩
        (.ok ⟨200, ""⟩) 0 "t" =
      ⟨⟨400, jsonStr "Slack webhook URL not configured"⟩, none⟩ ∧
    alarmHandler ⟨some "", some "P", some "dev"⟩ ⟨some [⟨some ⟨some "\x7b\x7d"⟩⟩]⟩
        (.ok ⟨200, ""⟩) 0 "t" =
      alarmHandler ⟨none, some "P", some "dev"⟩ ⟨some [⟨some ⟨some "\x7b\x7d"⟩⟩]⟩
        (.ok ⟨200, ""⟩) 0 "t" :=
  claim_C10 ⟨some "", some "P", some "dev"⟩ ⟨some [⟨some ⟨some "\x7b\x7d"⟩⟩]⟩
    (.ok ⟨200, ""⟩) 0 "t" rfl

end SlackNotify
